import Mathlib

set_option maxRecDepth 100000

/-!
Verification of the life-coaching backend server (src/server.js).

The server is a small Express application with four HTTP handlers:
order creation, payment-success verification plus notification emails,
a contact form, and a key-disclosure endpoint.  The one real algorithm
is the Razorpay signature check: hex HMAC-SHA256 of
`orderId + "|" + paymentId` under the configured secret, compared for
exact string equality with the client-supplied signature.

The embedding below is executable: SHA-256 and HMAC are implemented
over `Nat` byte lists exactly as in FIPS 180-4 / RFC 2104 (the
behaviour of Node's `crypto.createHmac("sha256", …)`), strings are
UTF-8 encoded, and each HTTP handler is a pure function from a request
and an environment (the configured secrets plus an oracle saying which
mail-transport calls succeed) to a response together with the list of
mail-send calls the handler performed, in order.
-/

/-! ## SHA-256 over byte lists (bytes and words are `Nat`, masked explicitly) -/

/-- Truncate to a 32-bit word. -/
def w32 (n : Nat) : Nat := n % 4294967296

/-- 32-bit right rotation. -/
def rotr (n x : Nat) : Nat := w32 ((x >>> n) ||| (x <<< (32 - n)))

/-- Bitwise complement within 32 bits. -/
def not32 (x : Nat) : Nat := x ^^^ 4294967295

def bsig0 (x : Nat) : Nat := rotr 2 x ^^^ rotr 13 x ^^^ rotr 22 x

def bsig1 (x : Nat) : Nat := rotr 6 x ^^^ rotr 11 x ^^^ rotr 25 x

def ssig0 (x : Nat) : Nat := rotr 7 x ^^^ rotr 18 x ^^^ (x >>> 3)

def ssig1 (x : Nat) : Nat := rotr 17 x ^^^ rotr 19 x ^^^ (x >>> 10)

def ch (x y z : Nat) : Nat := (x &&& y) ^^^ (not32 x &&& z)

def maj (x y z : Nat) : Nat := (x &&& y) ^^^ (x &&& z) ^^^ (y &&& z)

/-- The 64 SHA-256 round constants. -/
def shaK : List Nat :=
  [1116352408, 1899447441, 3049323471, 3921009573, 961987163,
   1508970993, 2453635748, 2870763221, 3624381080, 310598401,
   607225278, 1426881987, 1925078388, 2162078206, 2614888103,
   3248222580, 3835390401, 4022224774, 264347078, 604807628,
   770255983, 1249150122, 1555081692, 1996064986, 2554220882,
   2821834349, 2952996808, 3210313671, 3336571891, 3584528711,
   113926993, 338241895, 666307205, 773529912, 1294757372,
   1396182291, 1695183700, 1986661051, 2177026350, 2456956037,
   2730485921, 2820302411, 3259730800, 3345764771, 3516065817,
   3600352804, 4094571909, 275423344, 430227734, 506948616,
   659060556, 883997877, 958139571, 1322822218, 1537002063,
   1747873779, 1955562222, 2024104815, 2227730452, 2361852424,
   2428436474, 2756734187, 3204031479, 3329325298]

/-- Working state of the compression function. -/
structure Hash8 where
  a : Nat
  b : Nat
  c : Nat
  d : Nat
  e : Nat
  f : Nat
  g : Nat
  h : Nat
deriving DecidableEq

/-- SHA-256 initial hash value. -/
def initH : Hash8 :=
  ⟨1779033703, 3144134277, 1013904242, 2773480762,
   1359893119, 2600822924, 528734635, 1541459225⟩

/-- One round of the SHA-256 compression function. -/
def shaRound (st : Hash8) (k w : Nat) : Hash8 :=
  let t1 := w32 (st.h + bsig1 st.e + ch st.e st.f st.g + k + w)
  let t2 := w32 (bsig0 st.a + maj st.a st.b st.c)
  ⟨w32 (t1 + t2), st.a, st.b, st.c, w32 (st.d + t1), st.e, st.f, st.g⟩

/-- One step of the message-schedule extension.  The list holds the
schedule so far in reverse, so `getD 1` is `w[i-2]`, `getD 6` is
`w[i-7]`, `getD 14` is `w[i-15]` and `getD 15` is `w[i-16]`. -/
def extendStep (l : List Nat) : List Nat :=
  w32 (ssig1 (l.getD 1 0) + l.getD 6 0 + ssig0 (l.getD 14 0) + l.getD 15 0) :: l

/-- The 64-word message schedule of a 16-word block. -/
def schedule (block : List Nat) : List Nat :=
  ((List.range 48).foldl (fun l _ => extendStep l) block.reverse).reverse

/-- Compress one 16-word block into the running hash value. -/
def compressBlock (st : Hash8) (block : List Nat) : Hash8 :=
  let fin := (shaK.zip (schedule block)).foldl (fun s p => shaRound s p.1 p.2) st
  ⟨w32 (st.a + fin.a), w32 (st.b + fin.b), w32 (st.c + fin.c), w32 (st.d + fin.d),
   w32 (st.e + fin.e), w32 (st.f + fin.f), w32 (st.g + fin.g), w32 (st.h + fin.h)⟩

/-- `k` bytes of `n`, big-endian. -/
def beBytes : Nat → Nat → List Nat
  | 0, _ => []
  | k + 1, n => beBytes k (n >>> 8) ++ [n &&& 255]

/-- FIPS 180-4 padding: append `0x80`, zeros, and the 64-bit bit length. -/
def padMsg (m : List Nat) : List Nat :=
  let L := m.length
  m ++ 0x80 :: List.replicate ((64 - (L + 9) % 64) % 64) 0 ++ beBytes 8 (8 * L)

/-- Group bytes into big-endian 32-bit words. -/
def words4 : List Nat → List Nat
  | a :: b :: c :: d :: rest =>
      (a * 16777216 + b * 65536 + c * 256 + d) :: words4 rest
  | _ => []

/-- Group a word list into 16-word blocks. -/
def chunk16 : List Nat → List (List Nat)
  | w0 :: w1 :: w2 :: w3 :: w4 :: w5 :: w6 :: w7 ::
    w8 :: w9 :: w10 :: w11 :: w12 :: w13 :: w14 :: w15 :: rest =>
      [w0, w1, w2, w3, w4, w5, w6, w7, w8, w9, w10, w11, w12, w13, w14, w15]
        :: chunk16 rest
  | _ => []

/-- SHA-256 of a byte list, as a 32-byte list. -/
def sha256 (m : List Nat) : List Nat :=
  let H := (chunk16 (words4 (padMsg m))).foldl compressBlock initH
  beBytes 4 H.a ++ beBytes 4 H.b ++ beBytes 4 H.c ++ beBytes 4 H.d ++
  beBytes 4 H.e ++ beBytes 4 H.f ++ beBytes 4 H.g ++ beBytes 4 H.h

/-! ## HMAC-SHA256 (RFC 2104), hex encoding, UTF-8 -/

/-- HMAC-SHA256 over byte lists. -/
def hmacSha256 (key msg : List Nat) : List Nat :=
  let k0 := if 64 < key.length then sha256 key else key
  let kp := k0 ++ List.replicate (64 - k0.length) 0
  sha256 (kp.map (fun b => b ^^^ 0x5c) ++ sha256 (kp.map (fun b => b ^^^ 0x36) ++ msg))

/-- Lowercase hex digit of a value below 16. -/
def hexDigit (n : Nat) : Char :=
  if n < 10 then Char.ofNat (48 + n) else Char.ofNat (87 + n)

/-- Lowercase hex encoding of a byte list. -/
def toHex (bs : List Nat) : String :=
  ⟨bs.flatMap (fun b => [hexDigit (b >>> 4), hexDigit (b &&& 15)])⟩

/-- UTF-8 encoding of one scalar value. -/
def utf8Char (c : Char) : List Nat :=
  let n := c.toNat
  if n < 0x80 then [n]
  else if n < 0x800 then
    [0xc0 ||| (n >>> 6), 0x80 ||| (n &&& 0x3f)]
  else if n < 0x10000 then
    [0xe0 ||| (n >>> 12), 0x80 ||| ((n >>> 6) &&& 0x3f), 0x80 ||| (n &&& 0x3f)]
  else
    [0xf0 ||| (n >>> 18), 0x80 ||| ((n >>> 12) &&& 0x3f),
     0x80 ||| ((n >>> 6) &&& 0x3f), 0x80 ||| (n &&& 0x3f)]

/-- UTF-8 bytes of a string. -/
def strBytes (s : String) : List Nat := s.data.flatMap utf8Char

/-- Node's `crypto.createHmac("sha256", secret).update(msg).digest("hex")`. -/
def hmacSha256Hex (secret msg : String) : String :=
  toHex (hmacSha256 (strBytes secret) (strBytes msg))

/-- FIPS 180-4 test vector: SHA-256 of the empty message. -/
theorem sha256_empty_vector :
    toHex (sha256 (strBytes "")) =
      "e3b0c44298fc1c149afbf4c8996fb92427ae41e4649b934ca495991b7852b855" := by
  decide

/-- FIPS 180-4 test vector: SHA-256 of "abc". -/
theorem sha256_abc_vector :
    toHex (sha256 (strBytes "abc")) =
      "ba7816bf8f01cfea414140de5dae2223b00361a396177a9cb410ff61f20015ad" := by
  decide

/-- RFC 4231 test case 2: HMAC-SHA256 with key "Jefe". -/
theorem hmac_rfc4231_vector :
    hmacSha256Hex "Jefe" "what do ya want for nothing?" =
      "5bdcc146bf60754e6a042426089575c75a003f089d2739839dec58b964ec3843" := by
  decide

/-! ## JavaScript value fragments needed by the handlers -/

/-- The dynamic value of the `amount` field of a payment-success body.
Numeric amounts in this system are integer paise, so numbers are
modelled as `Int`. -/
inductive JsVal where
  | num (n : Int)
  | str (s : String)
  | undef
deriving DecidableEq

def JsVal.isNum : JsVal → Bool
  | .num _ => true
  | _ => false

/-- Models `(amount).toFixed(2)`: an integer-valued number renders with
two decimal places; calling `toFixed` on a string or on `undefined`
throws a `TypeError`, modelled as `none`. -/
def toFixed2 : JsVal → Option String
  | .num n => some (toString n ++ ".00")
  | _ => none

/-- JS truthiness of an optional string: `undefined` and `""` are falsy. -/
def truthyS : Option String → Bool
  | none => false
  | some s => !(s == "")

/-- Template interpolation of an optional string: `undefined` prints as
the literal text `undefined`. -/
def jsStrOf : Option String → String
  | none => "undefined"
  | some s => s

/-! ## Data shapes of the requests (src/server.js destructured bodies) -/

structure CustomerDetails where
  fullName : String
  email : String
  phone : String
deriving DecidableEq

/-- One element of `cartItems`; `title`, `name` and `quantity` may be
absent. -/
structure CartItem where
  title : Option String
  name : Option String
  price : Int
  quantity : Option Int
deriving DecidableEq

structure PaymentSuccessReq where
  razorpayPaymentId : String
  razorpayOrderId : String
  razorpaySignature : String
  customerDetails : CustomerDetails
  cartItems : Option (List CartItem)
  amount : JsVal
deriving DecidableEq

structure ContactReq where
  name : String
  email : String
  subject : String
  message : String
deriving DecidableEq

/-- The environment variables the handlers read. -/
structure Env where
  razorpaySecret : String
  emailUser : String
deriving DecidableEq

/-- An argument to `transporter.sendMail`. -/
structure MailMsg where
  fromAddr : String
  toAddr : String
  subject : String
  html : String
deriving DecidableEq

/-- A JSON response body: the fields any of the handlers ever set. -/
structure JsonBody where
  success : Option Bool
  message : Option String
  errorMsg : Option String
  details : Option String
deriving DecidableEq

/-- What one handler invocation did: HTTP status, JSON body, and the
`sendMail` calls it performed, in order. -/
structure HandlerResult where
  status : Nat
  body : JsonBody
  mailCalls : List MailMsg
deriving DecidableEq

/-! ## Payment-success handler (src/server.js lines 98-203) -/

/-- `${item.title || item.name}`. -/
def titleOrName (it : CartItem) : String :=
  if truthyS it.title then jsStrOf it.title else jsStrOf it.name

/-- `${item.quantity ? `x (quantity)` : ''}` (0 and absent are falsy). -/
def qtyHtml : Option Int → String
  | some n => if n = 0 then "" else "x " ++ toString n
  | none => ""

/-- The `<li>` produced for one cart item. -/
def cartItemLi (it : CartItem) : String :=
  "\n            <li>\n              <strong>" ++ titleOrName it ++
  "</strong> - \n              ₹" ++ toString it.price ++ " " ++
  qtyHtml it.quantity ++ "\n            </li>\n          "

/-- `cartItemsHtml`: empty unless `cartItems` is present and non-empty
(`if (cartItems && cartItems.length > 0)`). -/
def cartItemsHtml : Option (List CartItem) → String
  | some items =>
      if 0 < items.length then
        "\n        <h3 style=\"margin-top: 20px; color: #8e44ad;\">Items Purchased:</h3>\n        <ul style=\"padding-left: 20px;\">\n          " ++
        String.join (items.map cartItemLi) ++
        "\n        </ul>\n      "
      else ""
  | none => ""

/-- HTML of the customer confirmation email, with the interpolated
values abstracted as arguments. -/
def paymentCustomerHtml (fullName amtStr txnId cartHtml : String) : String :=
  "\n        <div style=\"font-family: Arial, sans-serif; max-width: 600px; margin: 0 auto; padding: 20px;\">\n          <h2 style=\"color: #8e44ad;\">Thank you for your booking!</h2>\n          <p>Dear " ++
  fullName ++
  ",</p>\n          <p>We are pleased to confirm your booking with Mrs. Shereen Life Coaching.</p>\n          <div style=\"background-color: #f8f4ff; padding: 15px; border-radius: 5px; margin: 20px 0;\">\n            <h3 style=\"margin-top: 0; color: #8e44ad;\">Booking Details:</h3>\n            <p><strong>Amount Paid:</strong> ₹" ++
  amtStr ++
  "</p>\n            <p><strong>Transaction ID:</strong> " ++
  txnId ++
  "</p>\n            " ++
  cartHtml ++
  "\n          </div>\n          <p>Mrs. Shereen will contact you within 24 hours on your provided phone number to schedule your session.</p>\n          <p>Warm regards,<br>The Mrs. Shereen Life Coaching Team</p>\n        </div>\n      "

/-- HTML of the admin notification email. -/
def paymentAdminHtml (fullName email phone amtStr txnId cartHtml : String) : String :=
  "\n        <div style=\"font-family: Arial, sans-serif; max-width: 600px; margin: 0 auto; padding: 20px;\">\n          <h2 style=\"color: #8e44ad;\">New Booking Received!</h2>\n          <div style=\"background-color: #f8f4ff; padding: 15px; border-radius: 5px; margin: 20px 0;\">\n            <p><strong>Name:</strong> " ++
  fullName ++
  "</p>\n            <p><strong>Email:</strong> " ++
  email ++
  "</p>\n            <p><strong>Phone:</strong> " ++
  phone ++
  "</p>\n            <p><strong>Amount Paid:</strong> ₹" ++
  amtStr ++
  "</p>\n            <p><strong>Transaction ID:</strong> " ++
  txnId ++
  "</p>\n            " ++
  cartHtml ++
  "\n          </div>\n          <p>Please contact the customer within 24 hours to schedule their session.</p>\n        </div>\n      "

/-- The `mailOptions` customer email. -/
def paymentCustomerMail (env : Env) (req : PaymentSuccessReq) (amtStr : String) : MailMsg :=
  { fromAddr := "\"Mrs. Shereen Life Coaching\" <" ++ env.emailUser ++ ">",
    toAddr := req.customerDetails.email,
    subject := "Booking Confirmation - Mrs. Shereen Life Coaching",
    html := paymentCustomerHtml req.customerDetails.fullName amtStr
      req.razorpayPaymentId (cartItemsHtml req.cartItems) }

/-- The `adminMailOptions` email. -/
def paymentAdminMail (env : Env) (req : PaymentSuccessReq) (amtStr : String) : MailMsg :=
  { fromAddr := "\"Mrs. Shereen Booking System\" <" ++ env.emailUser ++ ">",
    toAddr := env.emailUser,
    subject := "New Booking Alert - Life Coaching",
    html := paymentAdminHtml req.customerDetails.fullName req.customerDetails.email
      req.customerDetails.phone amtStr req.razorpayPaymentId (cartItemsHtml req.cartItems) }

/-- The expected signature computed at lines 115-118. -/
def generatedSignature (secret orderId paymentId : String) : String :=
  hmacSha256Hex secret (orderId ++ "|" ++ paymentId)

def invalidSignatureBody : JsonBody :=
  { success := some false, message := some "Invalid signature", errorMsg := none, details := none }

def paymentOkBody : JsonBody :=
  { success := some true, message := none, errorMsg := none, details := none }

/-- Body of the catch-all 500 of the payment handler; `details` carries
`error.message` (the `TypeError` text is abstracted to its name). -/
def paymentFailBody (details : String) : JsonBody :=
  { success := some false, message := none,
    errorMsg := some "Payment verification failed", details := some details }

/-- The payment-success handler.  `sendErr` is the mail-transport
oracle: `none` means the `sendMail` call resolves, `some e` means it
rejects with message `e`.  Both sends sit in their own `try`/`catch`
whose handler only logs, so the oracle cannot influence the result;
it is a parameter to make that very fact provable. -/
def paymentSuccessHandler (env : Env) (sendErr : MailMsg → Option String)
    (req : PaymentSuccessReq) : HandlerResult :=
  if generatedSignature env.razorpaySecret req.razorpayOrderId req.razorpayPaymentId
      ≠ req.razorpaySignature then
    ⟨400, invalidSignatureBody, []⟩
  else
    match toFixed2 req.amount with
    | none => ⟨500, paymentFailBody "TypeError", []⟩
    | some amtStr =>
        ⟨200, paymentOkBody,
          [paymentCustomerMail env req amtStr, paymentAdminMail env req amtStr]⟩

/-! ## Contact-form handler (src/server.js lines 218-281) -/

/-- `message.replace(/\n/g, '<br>')`: global single-character regex
replacement, i.e. every newline becomes `<br>` and every other
character is kept. -/
def replaceNlBr (s : String) : String :=
  ⟨s.data.flatMap (fun c => if c = '\n' then "<br>".data else [c])⟩

/-- HTML of the admin contact-form email, interpolations abstracted;
`msgHtml` receives the already-replaced message. -/
def contactAdminHtml (name email subject msgHtml : String) : String :=
  "\n        <div style=\"font-family: Arial, sans-serif; max-width: 600px; margin: 0 auto; padding: 20px;\">\n          <h2 style=\"color: #8e44ad;\">New Contact Form Submission</h2>\n          <div style=\"background-color: #f8f4ff; padding: 15px; border-radius: 5px; margin: 20px 0;\">\n            <p><strong>Name:</strong> " ++
  name ++
  "</p>\n            <p><strong>Email:</strong> " ++
  email ++
  "</p>\n            <p><strong>Subject:</strong> " ++
  subject ++
  "</p>\n            <p><strong>Message:</strong></p>\n            <div style=\"background-color: white; padding: 15px; border-radius: 5px;\">\n              " ++
  msgHtml ++
  "\n            </div>\n          </div>\n        </div>\n      "

/-- HTML of the user confirmation contact-form email. -/
def contactUserHtml (name subject msgHtml : String) : String :=
  "\n        <div style=\"font-family: Arial, sans-serif; max-width: 600px; margin: 0 auto; padding: 20px;\">\n          <h2 style=\"color: #8e44ad;\">Thank You for Your Message</h2>\n          <p>Dear " ++
  name ++
  ",</p>\n          <p>Thank you for reaching out to Mrs. Shereen Life Coaching. I have received your message and will get back to you shortly.</p>\n          <p>Here\x27s a copy of your message:</p>\n          <div style=\"background-color: #f8f4ff; padding: 15px; border-radius: 5px; margin: 20px 0;\">\n            <p><strong>Subject:</strong> " ++
  subject ++
  "</p>\n            <p><strong>Message:</strong></p>\n            <div style=\"background-color: white; padding: 15px; border-radius: 5px;\">\n              " ++
  msgHtml ++
  "\n            </div>\n          </div>\n          <p>Warm regards,<br>Mrs. Shereen</p>\n        </div>\n      "

/-- The `contactMailOptions` email to the admin. -/
def contactAdminMail (env : Env) (req : ContactReq) : MailMsg :=
  { fromAddr := "\"Contact Form\" <" ++ env.emailUser ++ ">",
    toAddr := env.emailUser,
    subject := "New Contact Form: " ++ req.subject,
    html := contactAdminHtml req.name req.email req.subject (replaceNlBr req.message) }

/-- The `userConfirmationOptions` email to the submitter. -/
def contactUserMail (env : Env) (req : ContactReq) : MailMsg :=
  { fromAddr := "\"Mrs. Shereen Life Coaching\" <" ++ env.emailUser ++ ">",
    toAddr := req.email,
    subject := "Thank You for Contacting Mrs. Shereen",
    html := contactUserHtml req.name req.subject (replaceNlBr req.message) }

def contactOkBody : JsonBody :=
  { success := some true, message := some "Message sent successfully!",
    errorMsg := none, details := none }

def contactFailBody (details : String) : JsonBody :=
  { success := some false, message := some "Failed to send message",
    errorMsg := none, details := some details }

/-- The contact-form handler: both emails are built, then sent
sequentially, each awaited without its own `try`/`catch`, under one
handler-wide catch. -/
def contactHandler (env : Env) (sendErr : MailMsg → Option String)
    (req : ContactReq) : HandlerResult :=
  let adminMail := contactAdminMail env req
  let userMail := contactUserMail env req
  match sendErr adminMail with
  | some e => ⟨500, contactFailBody e, [adminMail]⟩
  | none =>
    match sendErr userMail with
    | some e => ⟨500, contactFailBody e, [adminMail, userMail]⟩
    | none => ⟨200, contactOkBody, [adminMail, userMail]⟩

/-! ## Order-creation handler (src/server.js lines 70-95) -/

/-- The `notes` block forwarded to the gateway. -/
structure OrderNotes where
  customerName : String
  customerEmail : String
  customerPhone : String
deriving DecidableEq

/-- The `options` object passed to `razorpay.orders.create`. -/
structure OrderOptions where
  amount : Int
  currency : String
  receipt : String
  notes : OrderNotes
deriving DecidableEq

structure CreateOrderReq where
  amount : Int
  currency : String
  receipt : String
  customerDetails : CustomerDetails
deriving DecidableEq

/-- Result of one order-creation invocation: the options the gateway
was called with, the HTTP status, the order echoed on success, and the
`{error, details}` body on failure. -/
structure CreateOrderResult (α : Type) where
  calledWith : OrderOptions
  status : Nat
  orderBody : Option α
  errBody : Option (String × String)

/-- The `options` object built from a request body. -/
def orderOptionsOf (req : CreateOrderReq) : OrderOptions :=
  { amount := req.amount, currency := req.currency, receipt := req.receipt,
    notes := { customerName := req.customerDetails.fullName,
               customerEmail := req.customerDetails.email,
               customerPhone := req.customerDetails.phone } }

/-- The create-order handler, parametric in the gateway (`α` is the
gateway's order type; `Except.error` carries `error.message`). -/
def createOrderHandler {α : Type} (gw : OrderOptions → Except String α)
    (req : CreateOrderReq) : CreateOrderResult α :=
  let options := orderOptionsOf req
  match gw options with
  | .ok order => ⟨options, 200, some order, none⟩
  | .error e => ⟨options, 500, none, some ("Failed to create order", e)⟩

/-! ## Startup credential checks (src/server.js lines 22-30) -/

/-- The credential-bearing environment variables at startup. -/
structure ProcEnv where
  razorpayKeyId : Option String
  razorpaySecret : Option String
  emailUser : Option String
  emailPassword : Option String
deriving DecidableEq

/-- Outcome of the startup checks: either `process.exit(code)` before
any route is installed, or the process goes on to serve, having warned
about missing email credentials or not. -/
inductive Startup where
  | exited (code : Nat)
  | serving (warnedEmail : Bool)
deriving DecidableEq

/-- Lines 22-30: missing (or empty, JS falsy) gateway credentials are
fatal with exit code 1; missing email credentials only produce a
warning. -/
def startupCheck (env : ProcEnv) : Startup :=
  if !truthyS env.razorpayKeyId || !truthyS env.razorpaySecret then
    .exited 1
  else
    .serving (!truthyS env.emailUser || !truthyS env.emailPassword)

/-! ## Supporting lemmas -/

/-- Substring occurrence, stated by explicit decomposition. -/
def containsStr (haystack needle : String) : Prop :=
  ∃ u v : List Char, haystack.data = u ++ needle.data ++ v

theorem containsStr_append_left {u : String} (v : String) {t : String}
    (h : containsStr u t) : containsStr (u ++ v) t := by
  obtain ⟨x, y, hxy⟩ := h
  refine ⟨x, y ++ v.data, ?_⟩
  rw [String.data_append, hxy]
  simp [List.append_assoc]

theorem containsStr_append_right (u : String) {v : String} {t : String}
    (h : containsStr v t) : containsStr (u ++ v) t := by
  obtain ⟨x, y, hxy⟩ := h
  refine ⟨u.data ++ x, y, ?_⟩
  rw [String.data_append, hxy]
  simp [List.append_assoc]

theorem status_400_iff (env : Env) (sendErr : MailMsg → Option String)
    (req : PaymentSuccessReq) :
    (paymentSuccessHandler env sendErr req).status = 400 ↔
      generatedSignature env.razorpaySecret req.razorpayOrderId req.razorpayPaymentId
        ≠ req.razorpaySignature := by
  unfold paymentSuccessHandler
  by_cases h : generatedSignature env.razorpaySecret req.razorpayOrderId req.razorpayPaymentId
      = req.razorpaySignature
  · rw [if_neg (fun hn => hn h)]
    cases toFixed2 req.amount <;> simp [h]
  · rw [if_pos h]
    simp [h]

theorem signature_branch (env : Env) (sendErr : MailMsg → Option String)
    (req : PaymentSuccessReq)
    (h : generatedSignature env.razorpaySecret req.razorpayOrderId req.razorpayPaymentId
          = req.razorpaySignature) :
    paymentSuccessHandler env sendErr req =
      (match toFixed2 req.amount with
       | none => ⟨500, paymentFailBody "TypeError", []⟩
       | some amtStr =>
           ⟨200, paymentOkBody,
             [paymentCustomerMail env req amtStr, paymentAdminMail env req amtStr]⟩) := by
  unfold paymentSuccessHandler
  rw [if_neg (fun hn => hn h)]

/-! ## Claim theorems -/

/-- C1: the payment-success handler computes the expected signature as
the hex HMAC-SHA256 of `orderId + "|" + paymentId` under the secret,
and accepts (does not answer 400) exactly when the client-supplied
signature is string-equal to that digest; any other signature is
rejected. -/
theorem payment_signature_verification (env : Env)
    (sendErr : MailMsg → Option String) (req : PaymentSuccessReq) :
    generatedSignature env.razorpaySecret req.razorpayOrderId req.razorpayPaymentId
      = hmacSha256Hex env.razorpaySecret
          (req.razorpayOrderId ++ "|" ++ req.razorpayPaymentId)
    ∧ ((paymentSuccessHandler env sendErr req).status ≠ 400
        ↔ req.razorpaySignature
            = hmacSha256Hex env.razorpaySecret
                (req.razorpayOrderId ++ "|" ++ req.razorpayPaymentId)) := by
  refine ⟨rfl, ?_⟩
  by_cases h : generatedSignature env.razorpaySecret req.razorpayOrderId req.razorpayPaymentId
      = req.razorpaySignature
  · rw [signature_branch env sendErr req h]
    cases toFixed2 req.amount <;> simp <;> exact h.symm
  · unfold paymentSuccessHandler
    rw [if_pos h]
    constructor
    · intro hne; exact absurd rfl hne
    · intro hs; exact absurd hs.symm h

/-- C2: a payment-success request whose signature differs from the
computed HMAC digest gets HTTP 400 with `{success:false, message:
"Invalid signature"}` and no `sendMail` call is performed. -/
theorem payment_mismatch_rejected (env : Env)
    (sendErr : MailMsg → Option String) (req : PaymentSuccessReq)
    (h : req.razorpaySignature ≠ hmacSha256Hex env.razorpaySecret
          (req.razorpayOrderId ++ "|" ++ req.razorpayPaymentId)) :
    paymentSuccessHandler env sendErr req = ⟨400, invalidSignatureBody, []⟩ := by
  unfold paymentSuccessHandler
  rw [if_pos (fun he => h he.symm)]

/-- Witness for C2: a concrete mismatched signature is answered with
400, the invalid-signature body, and an empty mail-call list. -/
theorem payment_mismatch_rejected_witness :
    paymentSuccessHandler ⟨"s", "admin@x.com"⟩ (fun _ => none)
      ⟨"pay_1", "order_1", "bad", ⟨"Alice", "alice@x.com", "123"⟩, none, .num 1⟩ =
      ⟨400, invalidSignatureBody, []⟩ :=
  payment_mismatch_rejected _ _ _ (by decide)

/-- C9: a payment-success request with a valid signature but a
non-numeric `amount` throws in `toFixed` while building the first
email, so no email is sent and the catch-all answers HTTP 500 with
`success:false`. -/
theorem payment_bad_amount_500 (env : Env)
    (sendErr : MailMsg → Option String) (req : PaymentSuccessReq)
    (hsig : req.razorpaySignature = hmacSha256Hex env.razorpaySecret
          (req.razorpayOrderId ++ "|" ++ req.razorpayPaymentId))
    (hnum : req.amount.isNum = false) :
    paymentSuccessHandler env sendErr req = ⟨500, paymentFailBody "TypeError", []⟩ := by
  rw [signature_branch env sendErr req hsig.symm]
  cases ha : req.amount with
  | num n => rw [ha] at hnum; simp [JsVal.isNum] at hnum
  | str s => rfl
  | undef => rfl

/-- Witness for C9: a concrete request with the correct signature
and a string `amount` gets 500 and no emails. -/
theorem payment_bad_amount_500_witness :
    paymentSuccessHandler ⟨"s", "admin@x.com"⟩ (fun _ => none)
      ⟨"pay_1", "order_1",
       "742a38a9b459999e738a2d54e89b9f64b144535a09efaf21054dc143460d16c7",
       ⟨"Alice", "alice@x.com", "123"⟩, none, .str "50000"⟩ =
      ⟨500, paymentFailBody "TypeError", []⟩ :=
  payment_bad_amount_500 _ _ _ (by decide) (by decide)

/-- C5: the accept/reject decision of the payment-success handler is a
function of orderId, paymentId, the supplied signature and the secret
alone: two requests agreeing on those but differing arbitrarily in
amount, cart items and customer details produce the same decision. -/
theorem payment_decision_ignores_amount_and_cart (env : Env)
    (sendErr : MailMsg → Option String) (pid oid sig : String)
    (cd cd' : CustomerDetails) (ci ci' : Option (List CartItem)) (a a' : JsVal) :
    ((paymentSuccessHandler env sendErr ⟨pid, oid, sig, cd, ci, a⟩).status = 400
      ↔ (paymentSuccessHandler env sendErr ⟨pid, oid, sig, cd', ci', a'⟩).status = 400) := by
  rw [status_400_iff env sendErr ⟨pid, oid, sig, cd, ci, a⟩,
      status_400_iff env sendErr ⟨pid, oid, sig, cd', ci', a'⟩]

/-- C3: once the signature matches (and the body is well-typed, i.e.
`amount` is a number), the handler answers HTTP 200 `{success:true}`
and attempts both the customer and the admin email, whatever the mail
transport does: the result is the same under any two transport
oracles, because each send is wrapped in its own try/catch. -/
theorem payment_valid_sig_always_200 (env : Env) (req : PaymentSuccessReq)
    (hsig : req.razorpaySignature = hmacSha256Hex env.razorpaySecret
          (req.razorpayOrderId ++ "|" ++ req.razorpayPaymentId))
    (hnum : req.amount.isNum = true) :
    ∀ sendErr sendErr' : MailMsg → Option String,
      paymentSuccessHandler env sendErr req =
        ⟨200, paymentOkBody,
         [paymentCustomerMail env req ((toFixed2 req.amount).getD ""),
          paymentAdminMail env req ((toFixed2 req.amount).getD "")]⟩
      ∧ paymentSuccessHandler env sendErr req = paymentSuccessHandler env sendErr' req := by
  intro sendErr sendErr'
  refine ⟨?_, rfl⟩
  rw [signature_branch env sendErr req hsig.symm]
  cases ha : req.amount with
  | num n => rfl
  | str s => rw [ha] at hnum; simp [JsVal.isNum] at hnum
  | undef => rw [ha] at hnum; simp [JsVal.isNum] at hnum

/-- Witness for C3: with the correct concrete signature, the result is
200 with both emails attempted, identically under a transport that
succeeds and one that always fails. -/
theorem payment_valid_sig_always_200_witness :
    paymentSuccessHandler ⟨"s", "admin@x.com"⟩ (fun _ => some "boom")
      ⟨"pay_1", "order_1",
       "742a38a9b459999e738a2d54e89b9f64b144535a09efaf21054dc143460d16c7",
       ⟨"Alice", "alice@x.com", "123"⟩, none, .num 50000⟩ =
      ⟨200, paymentOkBody,
       [paymentCustomerMail ⟨"s", "admin@x.com"⟩
          ⟨"pay_1", "order_1",
           "742a38a9b459999e738a2d54e89b9f64b144535a09efaf21054dc143460d16c7",
           ⟨"Alice", "alice@x.com", "123"⟩, none, .num 50000⟩ "50000.00",
        paymentAdminMail ⟨"s", "admin@x.com"⟩
          ⟨"pay_1", "order_1",
           "742a38a9b459999e738a2d54e89b9f64b144535a09efaf21054dc143460d16c7",
           ⟨"Alice", "alice@x.com", "123"⟩, none, .num 50000⟩ "50000.00"]⟩ :=
  (payment_valid_sig_always_200 _ _ (by decide) (by decide)
    (fun _ => some "boom") (fun _ => none)).1

theorem items_header_contains :
    containsStr ("\n        <h3 style=\"margin-top: 20px; color: #8e44ad;\">Items Purchased:</h3>\n        <ul style=\"padding-left: 20px;\">\n          ")
      "Items Purchased:" :=
  ⟨("\n        <h3 style=\"margin-top: 20px; color: #8e44ad;\">").data,
   ("</h3>\n        <ul style=\"padding-left: 20px;\">\n          ").data, by decide⟩

theorem cart_block_contains (its : List CartItem) (h : its ≠ []) :
    containsStr (cartItemsHtml (some its)) "Items Purchased:" := by
  have hl : 0 < its.length := List.length_pos.mpr h
  simp only [cartItemsHtml]
  rw [if_pos hl]
  exact containsStr_append_left _ (containsStr_append_left _ items_header_contains)

theorem payment_customer_html_contains (fullName amt txn cart : String)
    (h : containsStr cart "Items Purchased:") :
    containsStr (paymentCustomerHtml fullName amt txn cart) "Items Purchased:" :=
  containsStr_append_left _ (containsStr_append_right _ h)

theorem payment_admin_html_contains (fullName email phone amt txn cart : String)
    (h : containsStr cart "Items Purchased:") :
    containsStr (paymentAdminHtml fullName email phone amt txn cart) "Items Purchased:" :=
  containsStr_append_left _ (containsStr_append_right _ h)

theorem cart_block_empty (ci : Option (List CartItem))
    (h : ci = none ∨ ci = some []) : cartItemsHtml ci = "" := by
  rcases h with h | h <;> rw [h] <;> rfl

/-- C6: with a matching signature, the emails carry the itemized cart
section exactly when `cartItems` is present and non-empty: an absent
or empty cart makes `cartItemsHtml` the empty string and both emails
equal their cart-free form, while a non-empty cart puts the
"Items Purchased:" section into both emails. -/
theorem payment_cart_section_iff_nonempty (env : Env)
    (sendErr : MailMsg → Option String) (req : PaymentSuccessReq)
    (hsig : req.razorpaySignature = hmacSha256Hex env.razorpaySecret
          (req.razorpayOrderId ++ "|" ++ req.razorpayPaymentId))
    (hnum : req.amount.isNum = true) :
    (cartItemsHtml req.cartItems = "" ↔ (req.cartItems = none ∨ req.cartItems = some []))
    ∧ ((req.cartItems = none ∨ req.cartItems = some []) →
        (paymentSuccessHandler env sendErr req).mailCalls.map MailMsg.html =
          [paymentCustomerHtml req.customerDetails.fullName
             ((toFixed2 req.amount).getD "") req.razorpayPaymentId "",
           paymentAdminHtml req.customerDetails.fullName req.customerDetails.email
             req.customerDetails.phone ((toFixed2 req.amount).getD "")
             req.razorpayPaymentId ""])
    ∧ (∀ its, req.cartItems = some its → its ≠ [] →
        ∀ m ∈ (paymentSuccessHandler env sendErr req).mailCalls,
          containsStr m.html "Items Purchased:") := by
  refine ⟨⟨?_, cart_block_empty req.cartItems⟩, ?_, ?_⟩
  · intro h
    cases hc : req.cartItems with
    | none => exact Or.inl rfl
    | some its =>
      cases its with
      | nil => exact Or.inr rfl
      | cons x xs =>
        exfalso
        rw [hc] at h
        simp only [cartItemsHtml] at h
        rw [if_pos (by simp)] at h
        have hd := congrArg String.data h
        rw [String.data_append, String.data_append] at hd
        obtain ⟨h1, h2⟩ := List.append_eq_nil.mp hd
        obtain ⟨h3, h4⟩ := List.append_eq_nil.mp h1
        exact absurd h3 (by decide)
  · intro hemp
    have hch : cartItemsHtml req.cartItems = "" := cart_block_empty req.cartItems hemp
    rw [signature_branch env sendErr req hsig.symm]
    cases ha : req.amount with
    | num n =>
        simp only [toFixed2, Option.getD]
        simp [paymentCustomerMail, paymentAdminMail, hch]
    | str s => rw [ha] at hnum; simp [JsVal.isNum] at hnum
    | undef => rw [ha] at hnum; simp [JsVal.isNum] at hnum
  · intro its hits hne m hm
    rw [signature_branch env sendErr req hsig.symm] at hm
    have hcart : containsStr (cartItemsHtml req.cartItems) "Items Purchased:" := by
      rw [hits]; exact cart_block_contains its hne
    cases ha : req.amount with
    | num n =>
        rw [ha] at hm
        replace hm : m ∈ [paymentCustomerMail env req (toString n ++ ".00"),
                          paymentAdminMail env req (toString n ++ ".00")] := hm
        simp only [List.mem_cons, List.not_mem_nil, or_false] at hm
        rcases hm with rfl | rfl
        · exact payment_customer_html_contains _ _ _ _ hcart
        · exact payment_admin_html_contains _ _ _ _ _ _ hcart
    | str s =>
        rw [ha] at hnum; simp [JsVal.isNum] at hnum
    | undef =>
        rw [ha] at hnum; simp [JsVal.isNum] at hnum

/-- Witness for C6: a concrete valid-signature request with an empty
cart list yields a cart block that is the empty string. -/
theorem payment_cart_section_iff_nonempty_witness :
    cartItemsHtml (some ([] : List CartItem)) = "" :=
  (payment_cart_section_iff_nonempty ⟨"s", "admin@x.com"⟩ (fun _ => none)
    ⟨"pay_1", "order_1",
     "742a38a9b459999e738a2d54e89b9f64b144535a09efaf21054dc143460d16c7",
     ⟨"Alice", "alice@x.com", "123"⟩, some [], .num 50000⟩
    (by decide) (by decide)).1.mpr (Or.inr rfl)

/-- C4: the contact handler sends the admin email first and the user
confirmation second, awaiting each: it answers 200 `{success:true,
message:...}` exactly when both sends succeed, and when the admin send
throws, the user confirmation is never sent and the answer is HTTP 500
with `success:false`. -/
theorem contact_sequential_sends (env : Env)
    (sendErr : MailMsg → Option String) (req : ContactReq) :
    ((contactHandler env sendErr req).mailCalls.head? = some (contactAdminMail env req))
    ∧ ((contactHandler env sendErr req).status = 200
        ↔ sendErr (contactAdminMail env req) = none
          ∧ sendErr (contactUserMail env req) = none)
    ∧ (∀ e, sendErr (contactAdminMail env req) = some e →
        contactHandler env sendErr req =
          ⟨500, contactFailBody e, [contactAdminMail env req]⟩)
    ∧ (sendErr (contactAdminMail env req) = none →
        sendErr (contactUserMail env req) = none →
        contactHandler env sendErr req =
          ⟨200, contactOkBody,
           [contactAdminMail env req, contactUserMail env req]⟩) := by
  unfold contactHandler
  cases ha : sendErr (contactAdminMail env req) with
  | some e => simp [ha]
  | none =>
      cases hu : sendErr (contactUserMail env req) with
      | some e => simp [ha, hu]
      | none => simp [ha, hu]

/-- Witness for C4: with a concrete transport that rejects the admin
email, the user confirmation is never attempted and the answer is 500
with `success:false`. -/
theorem contact_sequential_sends_witness :
    contactHandler ⟨"s", "admin@x.com"⟩
        (fun m => if m.toAddr = "admin@x.com" then some "boom" else none)
        ⟨"Bob", "bob@y.com", "Hello", "first line\nsecond line"⟩ =
      ⟨500, contactFailBody "boom",
       [contactAdminMail ⟨"s", "admin@x.com"⟩
          ⟨"Bob", "bob@y.com", "Hello", "first line\nsecond line"⟩]⟩ :=
  (contact_sequential_sends _ _ _).2.2.1 "boom" (by decide)

/-- C7: the order-creation handler forwards exactly the supplied
amount, currency and receipt together with a notes block holding the
customer's name, email and phone, and on gateway success returns the
gateway's order object unmodified with HTTP 200. -/
theorem create_order_forwards_and_returns {α : Type}
    (gw : OrderOptions → Except String α) (req : CreateOrderReq) :
    (createOrderHandler gw req).calledWith =
      ⟨req.amount, req.currency, req.receipt,
       ⟨req.customerDetails.fullName, req.customerDetails.email,
        req.customerDetails.phone⟩⟩
    ∧ (∀ o : α, gw (orderOptionsOf req) = Except.ok o →
        createOrderHandler gw req = ⟨orderOptionsOf req, 200, some o, none⟩) := by
  constructor
  · simp only [createOrderHandler]
    cases hg : gw (orderOptionsOf req) <;> simp [hg, orderOptionsOf]
  · intro o ho
    simp only [createOrderHandler]
    rw [ho]

/-- Witness for C7: a concrete gateway returning order `42` is echoed
unmodified with status 200. -/
theorem create_order_forwards_and_returns_witness :
    createOrderHandler (fun _ => Except.ok (42 : Nat))
        ⟨50000, "INR", "rcpt_1", ⟨"Alice", "alice@x.com", "123"⟩⟩ =
      ⟨orderOptionsOf ⟨50000, "INR", "rcpt_1", ⟨"Alice", "alice@x.com", "123"⟩⟩,
       200, some 42, none⟩ :=
  (create_order_forwards_and_returns _ _).2 42 rfl

/-- C8: at startup, a missing (or empty) gateway key id or secret makes
the process exit with status 1 — a non-zero code, and an `exited`
outcome is never a `serving` one — while missing email credentials
only set the warning flag of a still-serving process. -/
theorem startup_credential_policy (env : ProcEnv) :
    ((truthyS env.razorpayKeyId = false ∨ truthyS env.razorpaySecret = false) →
        startupCheck env = .exited 1
        ∧ (1 : Nat) ≠ 0
        ∧ ∀ w, Startup.exited 1 ≠ Startup.serving w)
    ∧ (truthyS env.razorpayKeyId = true → truthyS env.razorpaySecret = true →
        startupCheck env =
          .serving (!truthyS env.emailUser || !truthyS env.emailPassword)) := by
  constructor
  · intro h
    refine ⟨?_, by decide, fun w => by simp⟩
    unfold startupCheck
    rcases h with h | h <;> rw [if_pos] <;> simp [h]
  · intro h1 h2
    unfold startupCheck
    rw [if_neg]
    simp [h1, h2]

/-- Witness for C8: a concrete environment with the gateway secret
absent exits with code 1. -/
theorem startup_credential_policy_witness :
    startupCheck ⟨some "rzp_key", none, some "admin@x.com", some "pw"⟩ =
        .exited 1
      ∧ (1 : Nat) ≠ 0
      ∧ ∀ w, Startup.exited 1 ≠ Startup.serving w :=
  (startup_credential_policy ⟨some "rzp_key", none, some "admin@x.com", some "pw"⟩).1
    (Or.inr (by decide))

theorem replaceNlBr_data (s : String) :
    (replaceNlBr s).data
      = s.data.flatMap (fun c => if c = '\n' then "<br>".data else [c]) := rfl

theorem flatMap_no_nl (l : List Char)
    (h : l.all (fun c => !(c == '\n')) = true) :
    l.flatMap (fun c => if c = '\n' then "<br>".data else [c]) = l := by
  induction l with
  | nil => rfl
  | cons c cs ih =>
      rw [List.all_cons, Bool.and_eq_true] at h
      rw [List.flatMap_cons c cs _, if_neg (by simpa using h.1)]
      simp [ih h.2]

/-- C10: both contact-form emails embed the message with every newline
replaced by `<br>`: each email's HTML is its template applied to
`replaceNlBr message`, and `replaceNlBr` turns each newline into
`<br>` while leaving newline-free text unchanged. -/
theorem contact_message_newlines_to_br (env : Env)
    (sendErr : MailMsg → Option String) (req : ContactReq) :
    ((contactHandler env sendErr req).mailCalls.head?
        = some (contactAdminMail env req))
    ∧ (contactAdminMail env req).html =
        contactAdminHtml req.name req.email req.subject (replaceNlBr req.message)
    ∧ (contactUserMail env req).html =
        contactUserHtml req.name req.subject (replaceNlBr req.message)
    ∧ (∀ a b : String, replaceNlBr (a ++ "\n" ++ b)
        = replaceNlBr a ++ "<br>" ++ replaceNlBr b)
    ∧ (∀ s : String, s.data.all (fun c => !(c == '\n')) = true →
        replaceNlBr s = s) := by
  refine ⟨?_, rfl, rfl, ?_, ?_⟩
  · simp only [contactHandler]
    cases ha : sendErr (contactAdminMail env req) with
    | some e => rfl
    | none => cases hu : sendErr (contactUserMail env req) <;> rfl
  · intro a b
    apply String.ext
    rw [replaceNlBr_data, String.data_append, String.data_append,
        String.data_append, String.data_append, replaceNlBr_data,
        replaceNlBr_data, List.flatMap_append, List.flatMap_append]
    rw [show ("\n" : String).data.flatMap
          (fun c => if c = '\n' then "<br>".data else [c])
        = ("<br>" : String).data from rfl]
  · intro s h
    apply String.ext
    show s.data.flatMap _ = s.data
    exact flatMap_no_nl s.data h

/-- Witness for C10: the hypothesis-bearing part applied at a concrete
newline-free string. -/
theorem contact_message_newlines_to_br_witness :
    replaceNlBr "no newlines here" = "no newlines here" :=
  (contact_message_newlines_to_br ⟨"s", "admin@x.com"⟩ (fun _ => none)
      ⟨"Bob", "bob@y.com", "Hello", "msg"⟩).2.2.2.2
    "no newlines here" (by decide)
